import Mathlib

/-!
Shallow embedding of the Shadow-Nexus core command bus
(src/Core_Control: message_processor.py, signature_verifier.py,
command_router.py) and proofs of the spec's claims about it.

Modelling conventions:
* Python exceptions become `Option`/`Except` results; every `try/except`
  that swallows an exception becomes the `none`/`.error` branch.
* Timestamps are Python floats (epoch seconds) in the source; they are
  modelled as `Int`.  The claims only use ordering, subtraction and
  (non-)zeroness of timestamps, all of which are preserved.  Python's
  truthiness test `if timestamp:` (false for `None` and for `0.0`) is
  modelled by `pyTruthy`.
* `datetime.now()` is modelled by an explicit `now : Int` parameter.
* `dict` values (JSON payloads, handler responses) are modelled by the
  `Json` inductive below and association lists.
-/

namespace ShadowNexus

/-- JSON-equivalent tree, the result of `json.loads`.  A number literal
`m`/`e` denotes `m * 10 ^ e`; the integer/float distinction of Python is
irrelevant to every claim (any non-object payload is rejected the same
way).  Object fields are kept in source order. -/
inductive Json where
  | null : Json
  | bool (b : Bool) : Json
  | num (m : Int) (e : Int) : Json
  | str (s : String) : Json
  | arr (elems : List Json) : Json
  | obj (fields : List (String × Json)) : Json

/-- JSON insignificant whitespace (RFC 8259 / CPython `json`). -/
def isJsonWs (c : Char) : Bool :=
  c = ' ' || c = '\t' || c = '\n' || c = '\r'

/-- Drop leading JSON whitespace. -/
def skipWs : List Char → List Char
  | [] => []
  | c :: cs => if isJsonWs c then skipWs cs else c :: cs

def isDigit (c : Char) : Bool := '0' ≤ c && c ≤ '9'

def digitVal (c : Char) : Nat := c.toNat - '0'.toNat

/-- Parse a run of decimal digits, accumulating their value and count. -/
def parseDigits : List Char → Nat → Nat → (Nat × Nat × List Char)
  | [], acc, n => (acc, n, [])
  | c :: cs, acc, n =>
    if isDigit c then parseDigits cs (acc * 10 + digitVal c) (n + 1)
    else (acc, n, c :: cs)

def hexVal (c : Char) : Option Nat :=
  let n := c.toNat
  if 48 ≤ n && n ≤ 57 then some (n - 48)
  else if 97 ≤ n && n ≤ 102 then some (n - 87)
  else if 65 ≤ n && n ≤ 70 then some (n - 55)
  else none

/-- Parse the body of a JSON string literal after the opening quote,
with the standard escapes (`\uXXXX` is kept as the raw code unit; the
surrogate-pair recombination of CPython does not matter to any claim).
Unescaped control characters are rejected as in strict-mode `json.loads`. -/
def parseStringBody : List Char → List Char → Option (String × List Char)
  | [], _ => none
  | '"' :: cs, acc => some (String.mk acc.reverse, cs)
  | '\\' :: '"' :: cs, acc => parseStringBody cs ('"' :: acc)
  | '\\' :: '\\' :: cs, acc => parseStringBody cs ('\\' :: acc)
  | '\\' :: '/' :: cs, acc => parseStringBody cs ('/' :: acc)
  | '\\' :: 'b' :: cs, acc => parseStringBody cs ('\x08' :: acc)
  | '\\' :: 'f' :: cs, acc => parseStringBody cs ('\x0c' :: acc)
  | '\\' :: 'n' :: cs, acc => parseStringBody cs ('\n' :: acc)
  | '\\' :: 'r' :: cs, acc => parseStringBody cs ('\r' :: acc)
  | '\\' :: 't' :: cs, acc => parseStringBody cs ('\t' :: acc)
  | '\\' :: 'u' :: a :: b :: c :: d :: cs, acc =>
    (match hexVal a, hexVal b, hexVal c, hexVal d with
     | some ha, some hb, some hc, some hd =>
       let n := ((ha * 16 + hb) * 16 + hc) * 16 + hd
       if h : n.isValidChar then
         parseStringBody cs (Char.ofNatAux n h :: acc)
       else parseStringBody cs ('�' :: acc)
     | _, _, _, _ => none)
  | '\\' :: _, _ => none
  | c :: cs, acc =>
    if c.toNat < 0x20 then none else parseStringBody cs (c :: acc)

/-- Parse a JSON number after an optional leading minus sign:
`int frac? exp?`, with the leading-zero restriction of the grammar. -/
def parseNumber (neg : Bool) (cs : List Char) : Option (Json × List Char) :=
  match cs with
  | [] => none
  | c :: rest =>
    if !isDigit c then none
    else
      -- int part: a single 0, or a nonzero digit followed by digits
      let (ip, rest1) :=
        if c = '0' then ((0 : Nat), rest)
        else
          let (v, _, r) := parseDigits (c :: rest) 0 0
          (v, r)
      -- frac part
      let (mant, fracLen, rest2) :=
        match rest1 with
        | '.' :: r =>
          match r with
          | d :: _ =>
            if isDigit d then
              let (v, n, r') := parseDigits r ip 0
              (some v, n, r')
            else (none, 0, rest1)
          | [] => (none, 0, rest1)
        | _ => (some ip, 0, rest1)
      match mant with
      | none => none
      | some m =>
        -- exp part
        let eres : Option (Int × List Char) :=
          match rest2 with
          | e :: r =>
            if e = 'e' || e = 'E' then
              let (esign, r1) :=
                match r with
                | '-' :: r' => (true, r')
                | '+' :: r' => (false, r')
                | _ => (false, r)
              match r1 with
              | d :: _ =>
                if isDigit d then
                  let (v, _, r2) := parseDigits r1 0 0
                  some (if esign then -(v : Int) else (v : Int), r2)
                else none
              | [] => none
            else some (0, rest2)
          | [] => some (0, rest2)
        match eres with
        | none => none
        | some (ex, rest3) =>
          let mi : Int := if neg then -(m : Int) else (m : Int)
          some (.num mi (ex - fracLen), rest3)

/-- The pending task of the recursive-descent JSON parser: a whole
value, the members of an object after `{`, or the elements of an array
after `[` (`first` is true before the first member/element). -/
inductive ParseTask where
  | value (cs : List Char)
  | members (cs : List Char) (acc : List (String × Json)) (first : Bool)
  | elements (cs : List Char) (acc : List Json) (first : Bool)

/-- Fuel-indexed recursive descent over the CPython `json` grammar,
structurally recursive on the fuel so that it reduces definitionally.
Returns the parsed value and the unconsumed input. -/
def parseRun : Nat → ParseTask → Option (Json × List Char)
  | 0, _ => none
  | fuel + 1, .value cs =>
    match cs with
    | [] => none
    | c :: cs =>
      match c with
      | '"' =>
        match parseStringBody cs [] with
        | some (s, rest) => some (.str s, rest)
        | none => none
      | '{' => parseRun fuel (.members (skipWs cs) [] true)
      | '[' => parseRun fuel (.elements (skipWs cs) [] true)
      | 't' =>
        match cs with
        | 'r' :: 'u' :: 'e' :: rest => some (.bool true, rest)
        | _ => none
      | 'f' =>
        match cs with
        | 'a' :: 'l' :: 's' :: 'e' :: rest => some (.bool false, rest)
        | _ => none
      | 'n' =>
        match cs with
        | 'u' :: 'l' :: 'l' :: rest => some (.null, rest)
        | _ => none
      | '-' => parseNumber true cs
      | _ => parseNumber false (c :: cs)
  | fuel + 1, .members cs acc first =>
    match cs with
    | '}' :: rest =>
      if first then some (.obj acc.reverse, rest) else none
    | '"' :: cs' =>
      match parseStringBody cs' [] with
      | none => none
      | some (k, rest1) =>
        match skipWs rest1 with
        | ':' :: rest2 =>
          match parseRun fuel (.value (skipWs rest2)) with
          | none => none
          | some (v, rest3) =>
            match skipWs rest3 with
            | ',' :: rest4 =>
              parseRun fuel (.members (skipWs rest4) ((k, v) :: acc) false)
            | '}' :: rest4 => some (.obj ((k, v) :: acc).reverse, rest4)
            | _ => none
        | _ => none
    | _ => none
  | fuel + 1, .elements cs acc _first =>
    match cs with
    | ']' :: rest =>
      if _first then some (.arr acc.reverse, rest) else none
    | _ =>
      match parseRun fuel (.value cs) with
      | none => none
      | some (v, rest1) =>
        match skipWs rest1 with
        | ',' :: rest2 => parseRun fuel (.elements (skipWs rest2) (v :: acc) false)
        | ']' :: rest2 => some (.arr (v :: acc).reverse, rest2)
        | _ => none

/-- Parse one JSON value. -/
def parseValue (fuel : Nat) (cs : List Char) : Option (Json × List Char) :=
  parseRun fuel (.value cs)

/-- `json.loads`: parse a complete JSON document; trailing content after
the first value is an error ("Extra data"), a failed parse is an error
("Expecting value"); both become `none`. -/
def jsonLoads (s : String) : Option Json :=
  let cs := skipWs s.data
  match parseValue (cs.length + 1) cs with
  | none => none
  | some (v, rest) =>
    match skipWs rest with
    | [] => some v
    | _ => none

/-! ## MessageProcessor (src/Core_Control/message_processor.py)

`COMMAND_PATTERN = r'#(\w+)@(\w+)\{([^}]+)\}'` and
`re.search(COMMAND_PATTERN, message)`.

For this pattern the backtracking semantics of `re` collapse to a
deterministic scan: each `\w+` is followed by a non-word literal and
`[^}]+` is followed by `\}`, so every quantifier takes its maximal run
(any shorter run fails on the follower character).  `re.search` tries
each start position left to right.  `\w` is modelled as the ASCII word
characters; the claims use only ASCII. -/

/-- `\w` word character (ASCII fragment of Python's default Unicode
class, which is what every claim exercises). -/
def isWordChar (c : Char) : Bool := c.isAlphanum || c = '_'

/-- Attempt to match `#(\w+)@(\w+)\{([^}]+)\}` anchored at the head of
the input; returns the three capture groups. -/
def matchCommandAt (cs : List Char) : Option (String × String × String) :=
  match cs with
  | '#' :: rest =>
    let w1 := rest.takeWhile isWordChar
    let r1 := rest.dropWhile isWordChar
    if w1.isEmpty then none
    else
      match r1 with
      | '@' :: r2 =>
        let w2 := r2.takeWhile isWordChar
        let r3 := r2.dropWhile isWordChar
        if w2.isEmpty then none
        else
          match r3 with
          | '{' :: r4 =>
            let p := r4.takeWhile (fun c => c ≠ '}')
            let r5 := r4.dropWhile (fun c => c ≠ '}')
            if p.isEmpty then none
            else
              match r5 with
              | '}' :: _ => some (String.mk w1, String.mk w2, String.mk p)
              | _ => none
          | _ => none
      | _ => none
  | _ => none

/-- `re.search(COMMAND_PATTERN, message)`: first start position (left to
right) at which the pattern matches; yields `match.groups()`. -/
def searchCommand : List Char → Option (String × String × String)
  | [] => none
  | c :: cs =>
    match matchCommandAt (c :: cs) with
    | some g => some g
    | none => searchCommand cs

/-! ## Command (src/Core_Control/command_router.py, class Command) -/

/-- The pydantic `Command` model.  `payload : Dict[str, Any]` is an
association list of JSON values; `signature`/`timestamp` default to
`None`. -/
structure Command where
  command_type : String
  target_system : String
  payload : List (String × Json)
  signature : Option String := none
  timestamp : Option Int := none

/-- Pydantic validation of the `payload: Dict[str, Any]` field: a parsed
JSON value is accepted only when it is an object; anything else raises
`ValidationError` at `Command(...)` construction time (modelled as
`none`). -/
def payloadAsDict : Json → Option (List (String × Json))
  | .obj fields => some fields
  | _ => none

/-- `MessageProcessor.extract_command`.  The outer `try` returns `None`
on any exception (including pydantic `ValidationError`); the inner
`try` returns `None` on `json.JSONDecodeError`.  `now` stands for
`datetime.now().timestamp()`. -/
def extract_command (message : String) (now : Int) : Option Command :=
  match searchCommand message.data with
  | none => none
  | some (command_type, target_system, payload_str) =>
    match jsonLoads payload_str with
    | none => none
    | some payload =>
      match payloadAsDict payload with
      | none => none
      | some fields =>
        some { command_type := command_type
               target_system := target_system
               payload := fields
               timestamp := some now }

/-- `MessageProcessor._generate_cache_key`. -/
def generateCacheKey (command : Command) : String :=
  command.command_type ++ "_" ++ command.target_system ++ "_"
    ++ (match command.timestamp with
        | some t => toString t
        | none => "None")

/-- The processor's in-memory command cache (`self._command_cache`). -/
structure MessageProcessor where
  command_cache : List (String × Command) := []

/-- `extract_command` including its cache insertion side effect. -/
def extractAndCache (proc : MessageProcessor) (message : String)
    (now : Int) : MessageProcessor × Option Command :=
  match extract_command message now with
  | none => (proc, none)
  | some command =>
    ({ command_cache :=
         (generateCacheKey command, command) :: proc.command_cache },
     some command)

/-- The metadata dictionary built by `process_message`; the
`command_type`/`target_system` keys are present (`some`) exactly when a
command was extracted. -/
structure ParseMetadata where
  timestamp : Int
  length : Nat
  has_command : Bool
  command_type : Option String := none
  target_system : Option String := none

/-- `MessageProcessor.process_message` (`now` stands for both
`datetime.now()` readings, which the claims never distinguish). -/
def process_message (message : String) (now : Int) :
    Option Command × ParseMetadata :=
  let command := extract_command message now
  match command with
  | some c =>
    (command,
     { timestamp := now, length := message.length, has_command := true
       command_type := some c.command_type
       target_system := some c.target_system })
  | none =>
    (command,
     { timestamp := now, length := message.length, has_command := false })

/-! ## SignatureVerifier (src/Core_Control/signature_verifier.py)

`generate_signature` computes
`base64.b64encode(hmac.new(secret, (message + "|" + str(ts)).encode(),
hashlib.sha256).digest())`.  The standard-library primitives (UTF-8
encoding, SHA-256, HMAC, Base64) are modelled concretely below. -/

/-- UTF-8 encoding of one code point. -/
def utf8EncodeNat (n : Nat) : List Nat :=
  if n < 0x80 then [n]
  else if n < 0x800 then
    [0xC0 ||| (n >>> 6), 0x80 ||| (n &&& 0x3F)]
  else if n < 0x10000 then
    [0xE0 ||| (n >>> 12), 0x80 ||| ((n >>> 6) &&& 0x3F), 0x80 ||| (n &&& 0x3F)]
  else
    [0xF0 ||| (n >>> 18), 0x80 ||| ((n >>> 12) &&& 0x3F),
     0x80 ||| ((n >>> 6) &&& 0x3F), 0x80 ||| (n &&& 0x3F)]

/-- `str.encode('utf-8')`: the byte string of a text string. -/
def utf8Bytes (s : String) : List Nat :=
  (s.data.map (fun c => utf8EncodeNat c.toNat)).flatten

/-- Truncation to a 32-bit word. -/
def w32 (n : Nat) : Nat := n % 4294967296

/-- 32-bit right rotation. -/
def rotr (n x : Nat) : Nat := w32 ((x >>> n) ||| (x <<< (32 - n)))

/-- 32-bit complement. -/
def not32 (x : Nat) : Nat := x ^^^ 0xFFFFFFFF

/-- SHA-256 round constants. -/
def sha256K : List Nat :=
  [1116352408, 1899447441, 3049323471, 3921009573, 961987163,
   1508970993, 2453635748, 2870763221, 3624381080, 310598401,
   607225278, 1426881987, 1925078388, 2162078206, 2614888103,
   3248222580, 3835390401, 4022224774, 264347078, 604807628,
   770255983, 1249150122, 1555081692, 1996064986, 2554220882,
   2821834349, 2952996808, 3210313671, 3336571891, 3584528711,
   113926993, 338241895, 666307205, 773529912, 1294757372,
   1396182291, 1695183700, 1986661051, 2177026350, 2456956037,
   2730485921, 2820302411, 3259730800, 3345764771, 3516065817,
   3600352804, 4094571909, 275423344, 430227734, 506948616,
   659060556, 883997877, 958139571, 1322822218, 1537002063,
   1747873779, 1955562222, 2024104815, 2227730452, 2361852424,
   2428436474, 2756734187, 3204031479, 3329325298]

/-- SHA-256 initial hash state. -/
def sha256H0 : List Nat :=
  [1779033703, 3144134277, 1013904242, 2773480762, 1359893119,
   2600822924, 528734635, 1541459225]

/-- Big-endian byte expansion (`k` bytes). -/
def beBytes (k n : Nat) : List Nat :=
  (List.range k).map (fun i => (n >>> (8 * (k - 1 - i))) &&& 0xFF)

/-- Merkle–Damgård padding: `0x80`, zeros to 56 mod 64, then the bit
length as 8 big-endian bytes. -/
def sha256Pad (msg : List Nat) : List Nat :=
  let len := msg.length
  let zeros := (119 - len % 64) % 64
  msg ++ [0x80] ++ List.replicate zeros 0 ++ beBytes 8 (len * 8)

/-- Group bytes into big-endian 32-bit words. -/
def bytesToWords : List Nat → List Nat
  | b0 :: b1 :: b2 :: b3 :: rest =>
    (((b0 * 256 + b1) * 256 + b2) * 256 + b3) :: bytesToWords rest
  | _ => []

/-- Split a byte list into 64-byte blocks (fuel-driven so it reduces
definitionally; the fuel is always sufficient for padded input). -/
def splitBlocks : Nat → List Nat → List (List Nat)
  | 0, _ => []
  | _, [] => []
  | fuel + 1, l => l.take 64 :: splitBlocks fuel (l.drop 64)

/-- Extend the 16 block words to the 64-word message schedule. -/
def extendSchedule (w : List Nat) : Nat → List Nat
  | 0 => w
  | steps + 1 =>
    let i := w.length
    let w15 := w.getD (i - 15) 0
    let w2 := w.getD (i - 2) 0
    let s0 := (rotr 7 w15) ^^^ (rotr 18 w15) ^^^ (w15 >>> 3)
    let s1 := (rotr 17 w2) ^^^ (rotr 19 w2) ^^^ (w2 >>> 10)
    extendSchedule (w ++ [w32 (w.getD (i - 16) 0 + s0 + w.getD (i - 7) 0 + s1)]) steps

/-- One SHA-256 round on the eight working registers. -/
def sha256Round (st : List Nat) (wk : Nat) : List Nat :=
  match st with
  | [a, b, c, d, e, f, g, h] =>
    let sigE := (rotr 6 e) ^^^ (rotr 11 e) ^^^ (rotr 25 e)
    let choose := (e &&& f) ^^^ ((not32 e) &&& g)
    let t1 := w32 (h + sigE + choose + wk)
    let sigA := (rotr 2 a) ^^^ (rotr 13 a) ^^^ (rotr 22 a)
    let major := (a &&& (b ||| c)) ||| (b &&& c)
    let t2 := w32 (sigA + major)
    [w32 (t1 + t2), a, b, c, w32 (d + t1), e, f, g]
  | other => other

/-- Compress one 64-byte block into the running hash state. -/
def sha256Compress (H : List Nat) (block : List Nat) : List Nat :=
  let sched := extendSchedule (bytesToWords block) 48
  let st := (sched.zip sha256K).foldl (fun s (p : Nat × Nat) => sha256Round s (w32 (p.1 + p.2))) H
  (H.zip st).map (fun p => w32 (p.1 + p.2))

/-- `hashlib.sha256(msg).digest()`. -/
def sha256 (msg : List Nat) : List Nat :=
  let padded := sha256Pad msg
  let H := (splitBlocks (padded.length + 1) padded).foldl sha256Compress sha256H0
  (H.map (beBytes 4)).flatten

/-- `hmac.new(key, msg, hashlib.sha256).digest()` (RFC 2104). -/
def hmacSha256 (key msg : List Nat) : List Nat :=
  let key' := if 64 < key.length then sha256 key else key
  let kp := key' ++ List.replicate (64 - key'.length) 0
  let ipad := kp.map (fun b => b ^^^ 0x36)
  let opad := kp.map (fun b => b ^^^ 0x5C)
  sha256 (opad ++ sha256 (ipad ++ msg))

/-- The Base64 alphabet (`base64.b64encode`). -/
def b64Char (n : Nat) : Char :=
  "ABCDEFGHIJKLMNOPQRSTUVWXYZabcdefghijklmnopqrstuvwxyz0123456789+/".data.getD n '='

/-- Standard Base64 with `=` padding. -/
def b64Encode : List Nat → List Char
  | b0 :: b1 :: b2 :: rest =>
    let n := (b0 * 256 + b1) * 256 + b2
    b64Char (n >>> 18) :: b64Char ((n >>> 12) &&& 63) ::
      b64Char ((n >>> 6) &&& 63) :: b64Char (n &&& 63) :: b64Encode rest
  | [b0, b1] =>
    let n := (b0 * 256 + b1) * 4
    [b64Char (n >>> 12), b64Char ((n >>> 6) &&& 63), b64Char (n &&& 63), '=']
  | [b0] =>
    let n := b0 * 16
    [b64Char (n >>> 6), b64Char (n &&& 63), '=', '=']
  | [] => []

/-- Python truthiness of an optional timestamp: `if timestamp:` is false
for `None` and for `0.0`. -/
def pyTruthy : Option Int → Bool
  | none => false
  | some t => t != 0

/-- `SignatureVerifier.__init__`: a secret key and a maximum signature
age in seconds (default 300). -/
structure SignatureVerifier where
  secret_key : String
  max_age : Int := 300

/-- `SignatureVerifier.generate_signature`.  When `timestamp` is `None`
the current time `now` is used.  The signed text is
`f"{message}|{timestamp}"`; rendering the timestamp with `toString`
instead of Python float `repr` is harmless because signing and
verification render it identically. -/
def generate_signature (v : SignatureVerifier) (message : String)
    (timestamp : Option Int) (now : Int) : String :=
  let ts := timestamp.getD now
  let message_with_timestamp := message ++ "|" ++ toString ts
  String.mk (b64Encode (hmacSha256 (utf8Bytes v.secret_key)
    (utf8Bytes message_with_timestamp)))

/-- Smallest epoch second `datetime.fromtimestamp` accepts: CPython
builds the local `datetime` and, for fold detection, also probes up to
a day earlier, so conversion fails below one day after 0001-01-01 UTC
(shifted further by a non-zero local UTC offset; every concrete
timestamp in the claims is far from this boundary). -/
def minFromtimestamp : Int := -62135510400

/-- Largest epoch second `datetime.fromtimestamp` accepts:
9999-12-31 23:59:59 UTC; one second later the `datetime` constructor
raises "year 10000 is out of range". -/
def maxFromtimestamp : Int := 253402300799

/-- Whether `datetime.fromtimestamp(t)` succeeds.  Outside the years
1-9999 window it raises `ValueError` (or `OverflowError`), which
`verify_signature`'s `except Exception` turns into `False`. -/
def fromtimestampOk (t : Int) : Bool :=
  decide (minFromtimestamp ≤ t) && decide (t ≤ maxFromtimestamp)

/-- `SignatureVerifier.verify_signature`.  Under `if timestamp:` (false
for `None` and `0`) the code first converts the timestamp with
`datetime.fromtimestamp` — out of the representable range this raises
and the surrounding `except Exception` returns `False` — then rejects
when `now - timestamp > max_age`.  Otherwise the expected signature is
recomputed with `generate_signature(message, timestamp)` and compared
(`hmac.compare_digest`, i.e. equality; the constant-time aspect has no
observable value).  No later step of the `try` block can raise: the
comparison encodes two `str` values, which never fails. -/
def verify_signature (v : SignatureVerifier) (message signature : String)
    (timestamp : Option Int) (now : Int) : Bool :=
  if pyTruthy timestamp && !fromtimestampOk (timestamp.getD 0) then
    false
  else if pyTruthy timestamp && decide (now - timestamp.getD 0 > v.max_age) then
    false
  else
    signature == generate_signature v message timestamp now

/-- `SignatureVerifier.update_secret_key`. -/
def update_secret_key (v : SignatureVerifier) (new_secret_key : String) :
    SignatureVerifier :=
  { v with secret_key := new_secret_key }

/-! ## CommandRouter (src/Core_Control/command_router.py)

A handler response is a `Dict[str, Any]`.  A registered handler class
with its `async handle_command` method is modelled as a function from
the command to `Except String Response`, the error text standing for
`str(e)` of whatever exception the instantiation or the call raised
(per-call instantiation of a stateless class has no further observable
effect in the model).  The spec's error taxonomy (§7) names the two
raise sites: the `ValueError` of the registry miss is `RoutingError`
and the wrapping `RuntimeError` is `HandlerError`. -/

/-- A handler's response dictionary. -/
def Response := List (String × Json)

/-- A registered handler: instantiate-and-handle as one function;
`.error e` models the handler raising an exception with text `e`. -/
def Handler := Command → Except String Response

/-- The two exceptions `route_command` itself raises (spec §7 names). -/
inductive RouteError where
  | routingError (msg : String)
  | handlerError (msg : String)

/-- Router state: the `system_name -> handler` registry plus the log
stream (`logger.warning` / `logger.info` lines), which claim C8 needs.
The `_initialized` flag only gates the no-op `_initialize_handlers`
(a TODO stub in the source) and is omitted. -/
structure CommandRouter where
  handlers : List (String × Handler) := []
  logs : List String := []

/-- `CommandRouter.register_handler`: dict overwrite (one entry per
key), with a warning when the key already exists, then an info line. -/
def register_handler (r : CommandRouter) (system_name : String)
    (handler : Handler) : CommandRouter :=
  { handlers :=
      (system_name, handler) :: r.handlers.filter (fun p => p.1 ≠ system_name)
    logs := r.logs
      ++ (if (r.handlers.lookup system_name).isSome then
            ["Overwriting existing handler for " ++ system_name] else [])
      ++ ["Registered handler for " ++ system_name] }

/-- The `try` block of `route_command`: instantiate the handler and run
`handle_command`; any exception is re-raised as the wrapped
`RuntimeError` (spec: `HandlerError`) carrying the target system and
the original error text. -/
def invokeHandler (handler : Handler) (command : Command) :
    Except RouteError Response :=
  match handler command with
  | .ok response => .ok response
  | .error e =>
    .error (.handlerError
      ("Error handling command for " ++ command.target_system ++ ": " ++ e))

/-- `CommandRouter.route_command`: look up `command.target_system`; a
miss raises the `ValueError` (spec: `RoutingError`) naming the system;
a hit dispatches to the handler with exception wrapping. -/
def route_command (r : CommandRouter) (command : Command) :
    Except RouteError Response :=
  match r.handlers.lookup command.target_system with
  | none =>
    .error (.routingError
      ("No handler found for system: " ++ command.target_system))
  | some handler => invokeHandler handler command

/-! ## Helper lemmas -/

lemma takeWhile_all_append (p : Char → Bool) (l : List Char) (b : Char)
    (r : List Char) (hl : ∀ c ∈ l, p c = true) (hb : p b = false) :
    (l ++ b :: r).takeWhile p = l := by
  induction l with
  | nil => simp [List.takeWhile, hb]
  | cons c cs ih =>
    simp only [List.cons_append, List.takeWhile]
    rw [hl c (by simp)]
    simp only [List.cons.injEq, true_and]
    exact ih (fun x hx => hl x (by simp [hx]))

lemma dropWhile_all_append (p : Char → Bool) (l : List Char) (b : Char)
    (r : List Char) (hl : ∀ c ∈ l, p c = true) (hb : p b = false) :
    (l ++ b :: r).dropWhile p = b :: r := by
  induction l with
  | nil => simp [List.dropWhile, hb]
  | cons c cs ih =>
    simp only [List.cons_append, List.dropWhile]
    rw [hl c (by simp)]
    exact ih (fun x hx => hl x (by simp [hx]))

lemma matchCommandAt_ne_hash (c : Char) (cs : List Char) (h : ¬c = '#') :
    matchCommandAt (c :: cs) = none := by
  unfold matchCommandAt
  split
  · rename_i heq
    rw [List.cons.injEq] at heq
    exact absurd heq.1 (by exact fun hh => h hh)
  · rfl

lemma searchCommand_no_hash (cs : List Char) (h : ∀ c ∈ cs, ¬c = '#') :
    searchCommand cs = none := by
  induction cs with
  | nil => rfl
  | cons c cs ih =>
    unfold searchCommand
    rw [matchCommandAt_ne_hash c cs (h c (by simp))]
    exact ih (fun x hx => h x (by simp [hx]))

lemma isWordChar_ne_hash (c : Char) (h : isWordChar c = true) : ¬c = '#' := by
  intro hc
  subst hc
  exact absurd h (by decide)

/-- A verifier with the default `max_age = 300`, used by concrete
instances below. -/
def demoVerifier : SignatureVerifier := { secret_key := "key" }

/-- A concrete unauthenticated command for concrete routing instances. -/
def demoCommand : Command :=
  { command_type := "ping", target_system := "sys", payload := [] }

/-- A handler whose `handle_command` raises (`str(e) = "boom"`). -/
def failingHandler : Handler := fun _ => .error "boom"

/-- First of two distinct handler factories registered for one token. -/
def firstHandler : Handler := fun _ => .ok [("handler", .num 1 0)]

/-- Second of two distinct handler factories registered for one token. -/
def secondHandler : Handler := fun _ => .ok [("handler", .num 2 0)]

/-! ## Claims -/

/-- C1 (amended): the sign/verify round trip
`verify(s, sign(s, t), t) = true` holds provided the signature has not
expired at verification time — `now - t ≤ max_age` — and `t` is inside
the range `datetime.fromtimestamp` can convert (years 1-9999; outside
it the conversion raises and the `except` returns false), or `t = 0`
(a zero timestamp is falsy in Python, so `verify_signature` skips the
conversion and the age check entirely).  As stated, for every
timestamp, the claim is false: see the counterexample, where a stale
timestamp makes `verify` return false. -/
theorem sign_verify_roundtrip (v : SignatureVerifier) (s : String)
    (t nowSign now : Int)
    (h : (now - t ≤ v.max_age ∧ fromtimestampOk t = true) ∨ t = 0) :
    verify_signature v s (generate_signature v s (some t) nowSign)
      (some t) now = true := by
  unfold verify_signature
  rcases h with ⟨hage, hok⟩ | h
  · have hdec : decide (now - (some t).getD 0 > v.max_age) = false := by
      simp [Option.getD]
      omega
    rw [hdec]
    have hok' : fromtimestampOk ((some t).getD 0) = true := hok
    rw [hok']
    simp [generate_signature]
  · subst h
    simp [pyTruthy, generate_signature]

/-- C1 witness: a fresh signature (age 5 ≤ 300, timestamp 5 well inside
the representable range) round-trips. -/
theorem sign_verify_roundtrip_witness :
    (((10 : Int) - 5 ≤ demoVerifier.max_age ∧ fromtimestampOk 5 = true)
      ∨ (5 : Int) = 0)
    ∧ verify_signature demoVerifier "x"
        (generate_signature demoVerifier "x" (some 5) 2) (some 5) 10 = true :=
  ⟨Or.inl (by constructor <;> decide),
   sign_verify_roundtrip demoVerifier "x" 5 2 10
     (Or.inl (by constructor <;> decide))⟩

/-- C1 counterexample: with `t = 1` and current time `302` (age
`301 > 300 = max_age`) the round trip `verify(s, sign(s, t), t)` is
false, refuting the unrestricted claim. -/
theorem sign_verify_roundtrip_cex :
    verify_signature demoVerifier "x"
      (generate_signature demoVerifier "x" (some 1) 302) (some 1) 302
      = false := by
  rfl

/-- C2 (amended): verification with an absent timestamp does not reject
unconditionally.  `verify_signature` with `timestamp = None` skips the
age check and recomputes the expected signature at the *current* time,
so it returns exactly `signature == sign(message, now)`: it accepts the
(unique) signature generated for the current instant and rejects every
other string.  The spec's invariant that a signature without a
timestamp must be rejected is not implemented. -/
theorem verify_none_compares_current_time (v : SignatureVerifier)
    (message signature : String) (now : Int) :
    verify_signature v message signature none now
      = (signature == generate_signature v message none now) := rfl

/-- C2 counterexample: a command with a signature but no timestamp is
*accepted* when the signature matches the current instant (here the
signing timestamp 5 equals the verification time 5), refuting
"returns false for any message and signature". -/
theorem verify_none_accepts_cex :
    verify_signature demoVerifier "msg"
      (generate_signature demoVerifier "msg" (some 5) 0) none 5 = true := by
  show (generate_signature demoVerifier "msg" (some 5) 0
      == generate_signature demoVerifier "msg" none 5) = true
  exact beq_self_eq_true _

/-- C3 (amended): expiry holds for every *nonzero* timestamp: if
`t ≠ 0` and `now - t > max_age` then `verify(s, sign(s, t), t)` is
false — through the expiry check when `datetime.fromtimestamp` can
convert `t`, and through the caught conversion exception when it
cannot.  For `t = 0` the claim fails (see the counterexample):
Python's `if timestamp:` is false at `0`, so the expiry check is
skipped. -/
theorem verify_expired_rejects (v : SignatureVerifier) (s : String)
    (t nowSign now : Int) (ht : t ≠ 0) (h : now - t > v.max_age) :
    verify_signature v s (generate_signature v s (some t) nowSign)
      (some t) now = false := by
  unfold verify_signature
  have h1 : pyTruthy (some t) = true := by simp [pyTruthy, ht]
  have h2 : decide (now - (some t).getD 0 > v.max_age) = true := by
    simp [Option.getD]
    omega
  rw [h1, h2]
  cases fromtimestampOk ((some t).getD 0) <;> simp

/-- C3 witness: timestamp 1 at current time 302 (age `301 > 300`) is
rejected. -/
theorem verify_expired_rejects_witness :
    ((1 : Int) ≠ 0) ∧ ((302 : Int) - 1 > demoVerifier.max_age)
    ∧ verify_signature demoVerifier "x"
        (generate_signature demoVerifier "x" (some 1) 1) (some 1) 302
        = false :=
  ⟨by decide, by decide,
   verify_expired_rejects demoVerifier "x" 1 1 302 (by decide) (by decide)⟩

/-- C3 counterexample: at timestamp `0` the signature is accepted even
though `now - t = 1000 > max_age = 300`, refuting the unrestricted
expiry claim — `if timestamp:` skips the age check for the falsy
`0`. -/
theorem verify_expired_rejects_cex :
    verify_signature demoVerifier "x"
      (generate_signature demoVerifier "x" (some 0) 1000) (some 0) 1000
      = true := by
  show (generate_signature demoVerifier "x" (some 0) 1000
      == generate_signature demoVerifier "x" (some 0) 1000) = true
  exact beq_self_eq_true _

/-- C4: routing a command whose `target_system` has no registry entry
fails with the `RoutingError` naming that system ("No handler found for
system: ..."), for *every* registry content and hence without invoking
any registered handler (the result does not depend on any handler). -/
theorem route_unregistered_raises (r : CommandRouter) (command : Command)
    (h : r.handlers.lookup command.target_system = none) :
    route_command r command
      = .error (.routingError
          ("No handler found for system: " ++ command.target_system)) := by
  unfold route_command
  rw [h]

/-- C4 witness: an empty registry rejects `demoCommand` naming "sys". -/
theorem route_unregistered_raises_witness :
    (CommandRouter.mk [] []).handlers.lookup demoCommand.target_system = none
    ∧ route_command (CommandRouter.mk [] []) demoCommand
      = .error (.routingError ("No handler found for system: "
          ++ demoCommand.target_system)) :=
  ⟨rfl, route_unregistered_raises (CommandRouter.mk [] []) demoCommand rfl⟩

/-- C5: when the registered handler raises (error text `e`),
`route_command` raises the wrapping `HandlerError` whose message carries
the target system name and the original error text; the raised error is
the `handlerError` wrapper, never the handler's own exception. -/
theorem route_wraps_handler_error (r : CommandRouter) (command : Command)
    (handler : Handler) (e : String)
    (h1 : r.handlers.lookup command.target_system = some handler)
    (h2 : handler command = .error e) :
    route_command r command
      = .error (.handlerError ("Error handling command for "
          ++ command.target_system ++ ": " ++ e)) := by
  simp only [route_command, invokeHandler, h1, h2]

/-- C5 witness: a handler raising "boom" for "sys" yields the wrapped
message "Error handling command for sys: boom". -/
theorem route_wraps_handler_error_witness :
    (CommandRouter.mk [("sys", failingHandler)] []).handlers.lookup
        demoCommand.target_system = some failingHandler
    ∧ failingHandler demoCommand = .error "boom"
    ∧ route_command (CommandRouter.mk [("sys", failingHandler)] []) demoCommand
      = .error (.handlerError ("Error handling command for "
          ++ demoCommand.target_system ++ ": " ++ "boom")) :=
  ⟨rfl, rfl,
   route_wraps_handler_error (CommandRouter.mk [("sys", failingHandler)] [])
     demoCommand failingHandler "boom" rfl rfl⟩

/-- C8: last writer wins.  After registering handlers `f` then `g` for
the same token, routing a command with that target dispatches to `g`
(with the usual exception wrapping), and the second registration logged
the overwrite warning. -/
theorem reregistration_last_writer_wins (r : CommandRouter) (name : String)
    (f g : Handler) (command : Command) (h : command.target_system = name) :
    route_command (register_handler (register_handler r name f) name g)
        command = invokeHandler g command
    ∧ ("Overwriting existing handler for " ++ name)
        ∈ (register_handler (register_handler r name f) name g).logs := by
  subst h
  constructor
  · unfold route_command register_handler
    simp [List.lookup]
  · unfold register_handler
    simp [List.lookup]

/-- C8 witness: registering `firstHandler` then `secondHandler` for
"sys" routes `demoCommand` to `secondHandler` and logs the warning. -/
theorem reregistration_last_writer_wins_witness :
    demoCommand.target_system = "sys"
    ∧ (route_command (register_handler
          (register_handler (CommandRouter.mk [] []) "sys" firstHandler)
          "sys" secondHandler) demoCommand
        = invokeHandler secondHandler demoCommand
      ∧ ("Overwriting existing handler for " ++ "sys")
          ∈ (register_handler (register_handler (CommandRouter.mk [] [])
              "sys" firstHandler) "sys" secondHandler).logs) :=
  ⟨rfl, reregistration_last_writer_wins (CommandRouter.mk [] []) "sys"
    firstHandler secondHandler demoCommand rfl⟩

/-- C6: the spec requires `extract('#ping@system{"a":1}')` to return a
ping/system command with payload `{"a": 1}`, but the code returns
`None`: the regex group captures the payload *without* its braces, so
`json.loads` is fed `"a":1`, which fails to parse ("Extra data") and
the silent-skip branch returns `None`.  The three conjuncts document
the failure: the pattern does match with capture `"a":1`, that capture
is not valid JSON, and extraction returns nothing. -/
theorem extract_ping_returns_none (now : Int) :
    searchCommand ("#ping@system\x7b\"a\":1\x7d").data
      = some ("ping", "system", "\"a\":1")
    ∧ jsonLoads "\"a\":1" = none
    ∧ extract_command "#ping@system\x7b\"a\":1\x7d" now = none :=
  ⟨rfl, rfl, rfl⟩

/-- C7: silent skip on a bad payload: whenever the command pattern
matches with a captured payload substring that `json.loads` rejects,
`extract_command` returns `None` (never an exception, never a partial
command). -/
theorem extract_bad_json_silent (message : String) (now : Int)
    (ct ts ps : String)
    (hm : searchCommand message.data = some (ct, ts, ps))
    (hj : jsonLoads ps = none) :
    extract_command message now = none := by
  simp only [extract_command, hm, hj]

/-- C7 witness: `extract('#bad@system{not-json}')` returns nothing. -/
theorem extract_bad_json_silent_witness :
    searchCommand ("#bad@system\x7bnot-json\x7d").data
      = some ("bad", "system", "not-json")
    ∧ jsonLoads "not-json" = none
    ∧ extract_command "#bad@system\x7bnot-json\x7d" 7 = none :=
  ⟨rfl, rfl,
   extract_bad_json_silent "#bad@system\x7bnot-json\x7d" 7 "bad" "system"
     "not-json" rfl rfl⟩

/-- C9: an empty-object payload is not recognized: for any alphanumeric
and underscore tokens `t` (command type) and `s` (target system), the
message `#t@s{}` yields no command — `[^}]+` needs at least one
character between the braces, and no other position of the message can
start a match. -/
theorem extract_empty_braces_none (t s : List Char) (now : Int)
    (ht : t ≠ []) (hs : s ≠ [])
    (hwt : ∀ c ∈ t, isWordChar c = true)
    (hws : ∀ c ∈ s, isWordChar c = true) :
    extract_command (String.mk ('#' :: (t ++ '@' :: (s ++ ['{', '}'])))) now
      = none := by
  have htE : t.isEmpty = false := by
    cases t with
    | nil => exact absurd rfl ht
    | cons a l => rfl
  have hsE : s.isEmpty = false := by
    cases s with
    | nil => exact absurd rfl hs
    | cons a l => rfl
  have hmatch :
      matchCommandAt ('#' :: (t ++ '@' :: (s ++ ['{', '}']))) = none := by
    simp only [matchCommandAt]
    rw [takeWhile_all_append isWordChar t '@' _ hwt (by decide),
        dropWhile_all_append isWordChar t '@' _ hwt (by decide), htE]
    simp only [Bool.false_eq_true, if_false]
    rw [takeWhile_all_append isWordChar s '{' _ hws (by decide),
        dropWhile_all_append isWordChar s '{' _ hws (by decide), hsE]
    simp
  have hsearch :
      searchCommand ('#' :: (t ++ '@' :: (s ++ ['{', '}']))) = none := by
    unfold searchCommand
    rw [hmatch]
    refine searchCommand_no_hash _ (fun c hc => ?_)
    simp only [List.mem_append, List.mem_cons, List.not_mem_nil, or_false]
      at hc
    rcases hc with h1 | rfl | h3 | rfl | rfl
    · exact isWordChar_ne_hash c (hwt c h1)
    · decide
    · exact isWordChar_ne_hash c (hws c h3)
    · decide
    · decide
  unfold extract_command
  rw [show (String.mk ('#' :: (t ++ '@' :: (s ++ ['{', '}'])))).data
      = '#' :: (t ++ '@' :: (s ++ ['{', '}'])) from rfl, hsearch]

/-- C9 witness: `extract('#ping@system{}')` returns nothing. -/
theorem extract_empty_braces_none_witness :
    ("ping".data ≠ [] ∧ "system".data ≠ []
      ∧ (∀ c ∈ "ping".data, isWordChar c = true)
      ∧ (∀ c ∈ "system".data, isWordChar c = true))
    ∧ extract_command (String.mk
        ('#' :: ("ping".data ++ '@' :: ("system".data ++ ['{', '}'])))) 3
        = none :=
  ⟨⟨by decide, by decide, by decide, by decide⟩,
   extract_empty_braces_none "ping".data "system".data 3
     (by decide) (by decide) (by decide) (by decide)⟩

/-- C10: extraction and processing are total: `extract_command` is a
function into `Option Command` (the source catches every exception and
returns `None`), and `process_message` always returns metadata carrying
the message length and a `has_command` flag that is set exactly when a
command was extracted, alongside that same command.  In particular a
payload that is valid JSON but not a JSON object — the bare number in
`#x@y{1}` — yields nothing (pydantic rejects a non-dict payload and the
outer `except` swallows the `ValidationError`). -/
theorem process_message_total (message : String) (now : Int) :
    (process_message message now).2.length = message.length
    ∧ (process_message message now).2.has_command
        = ((process_message message now).1).isSome
    ∧ (process_message message now).1 = extract_command message now
    ∧ extract_command "#x@y\x7b1\x7d" now = none := by
  refine ⟨?_, ?_, ?_, rfl⟩ <;>
  · unfold process_message
    cases extract_command message now <;> rfl

end ShadowNexus
